import Mathlib

/-!
gtk-layer-shell: the layer surface (src/layer-surface.c)

A shallow embedding of `layer-surface.c`.  The entity `struct _LayerSurface`
becomes the structure `LayerSurface`; every C function becomes a pure function
from the entity (and the values its collaborators hand back) to the new
entity together with the list of calls it made on its collaborators, in
program order.  Pointers are natural-number handles, `NULL` is `none`.
-/

namespace LayerShell

/-! ## Data model -/

/-- Values of `enum zwlr_layer_shell_v1_layer`.  `GtkLayerShellLayer` has the
same four values with the same numbers (the two `g_assert`s at the top of
`layer_surface_set_layer` check exactly that), so the cast between the two
enums is the identity. -/
inductive Layer where
  | background
  | bottom
  | top
  | overlay
  deriving DecidableEq, Repr

/-- Modelled from the spec: the anchor enum of the generated protocol header
`wlr-layer-shell-unstable-v1-client.h`, which is not part of the source
extract.  The spec calls the anchor a bitset over left, right, top and
bottom; the values are those of the protocol, one bit per edge. -/
def ZWLR_LAYER_SURFACE_V1_ANCHOR_TOP : Nat := 1

/-- Modelled from the spec: the anchor enum of the generated protocol header,
bottom edge. -/
def ZWLR_LAYER_SURFACE_V1_ANCHOR_BOTTOM : Nat := 2

/-- Modelled from the spec: the anchor enum of the generated protocol header,
left edge. -/
def ZWLR_LAYER_SURFACE_V1_ANCHOR_LEFT : Nat := 4

/-- Modelled from the spec: the anchor enum of the generated protocol header,
right edge. -/
def ZWLR_LAYER_SURFACE_V1_ANCHOR_RIGHT : Nat := 8

/-- The entity `struct _LayerSurface` (the `super` part belongs to
`custom-shell-surface.c` and holds nothing this file reads or writes).
`cached_width`, `cached_height` and `exclusive_zone` are C `int`s, `anchor`
is a `uint32_t`, `output` and `layer_surface` are pointers. -/
structure LayerSurface where
  cached_width : Int
  cached_height : Int
  anchor : Nat
  exclusive_zone : Int
  output : Option Nat
  layer : Layer
  layer_surface : Option Nat
  deriving DecidableEq, Repr

/-- A C `int` (32 bits, two's complement). -/
def IsCInt (x : Int) : Prop := -2147483648 ≤ x ∧ x < 2147483648

instance (x : Int) : Decidable (IsCInt x) := by
  unfold IsCInt
  exact inferInstance

/-- The implicit conversion of a C `int` argument to a `uint32_t` parameter. -/
def toUInt32 (x : Int) : Nat := (x % 4294967296).toNat

/-- Every call the file makes on a collaborator, with its arguments.  The
first eight are layer-shell protocol requests, the next is the generic popup
request of xdg-shell, the rest are calls into the toolkit and the base class. -/
inductive Call where
  /-- Request `zwlr_layer_shell_v1_get_layer_surface (global, wl_surface, output, layer, name)`. -/
  | zwlr_layer_shell_v1_get_layer_surface (global wl_surface : Nat) (output : Option Nat)
      (layer : Layer) (name : String)
  | zwlr_layer_surface_v1_set_keyboard_interactivity (surface : Nat) (enabled : Bool)
  | zwlr_layer_surface_v1_set_anchor (surface : Nat) (anchor : Nat)
  | zwlr_layer_surface_v1_set_exclusive_zone (surface : Nat) (zone : Int)
  | zwlr_layer_surface_v1_add_listener (surface : Nat)
  | zwlr_layer_surface_v1_set_size (surface : Nat) (width height : Nat)
  | zwlr_layer_surface_v1_ack_configure (surface : Nat) (serial : Nat)
  | zwlr_layer_surface_v1_get_popup (surface : Nat) (popup : Option Nat)
  | zwlr_layer_surface_v1_destroy (surface : Nat)
  /-- Request `xdg_surface_get_popup (popup_xdg_surface, parent, positioner)`. -/
  | xdg_surface_get_popup (popup_xdg_surface : Nat) (parent : Option Nat) (positioner : Nat)
  /-- The base class is asked to commit at the next opportunity. -/
  | custom_shell_surface_needs_commit
  /-- The base class initialises its part of the entity. -/
  | custom_shell_surface_init (gtk_window : Nat)
  | gtk_window_set_decorated (gtk_window : Nat) (enabled : Bool)
  /-- Subscription `g_signal_connect (gtk_window, "size-allocate", ...)`. -/
  | g_signal_connect_size_allocate (gtk_window : Nat)
  /-- A logged failure of `g_return_if_fail` or a `g_critical`. -/
  | g_critical
  deriving DecidableEq, Repr

/-- Whether a call is a request of the layer-shell or xdg-shell protocol. -/
def Call.isProtocolRequest : Call → Bool
  | .zwlr_layer_shell_v1_get_layer_surface _ _ _ _ _ => true
  | .zwlr_layer_surface_v1_set_keyboard_interactivity _ _ => true
  | .zwlr_layer_surface_v1_set_anchor _ _ => true
  | .zwlr_layer_surface_v1_set_exclusive_zone _ _ => true
  | .zwlr_layer_surface_v1_add_listener _ => true
  | .zwlr_layer_surface_v1_set_size _ _ _ => true
  | .zwlr_layer_surface_v1_ack_configure _ _ => true
  | .zwlr_layer_surface_v1_get_popup _ _ => true
  | .zwlr_layer_surface_v1_destroy _ => true
  | .xdg_surface_get_popup _ _ _ => true
  | .custom_shell_surface_needs_commit => false
  | .custom_shell_surface_init _ => false
  | .gtk_window_set_decorated _ _ => false
  | .g_signal_connect_size_allocate _ => false
  | .g_critical => false

/-- What the collaborators of `layer_surface_map` hand back during one call:
the result of `gtk_wayland_get_layer_shell_global ()`, the result of
`gtk_window_get_title` and the result of
`zwlr_layer_shell_v1_get_layer_surface`. -/
structure MapOutcome where
  layer_shell_global : Option Nat
  title : Option String
  created : Option Nat
  deriving DecidableEq, Repr

/-! ## Operations -/

/-- The handler `layer_surface_handle_configure`: acknowledges the serial on
the surface it was called for; the entity is not touched. -/
def layer_surface_handle_configure (self : LayerSurface) (surface : Nat) (serial : Nat)
    (_w _h : Nat) : LayerSurface × List Call :=
  (self, [Call.zwlr_layer_surface_v1_ack_configure surface serial])

/-- The handler `layer_surface_handle_closed`: its body holds two comments
and no statement. -/
def layer_surface_handle_closed (self : LayerSurface) (_surface : Nat) :
    LayerSurface × List Call :=
  (self, [])

/-- The trailing part of `layer_surface_map`, after the factory returned
`surface`: the four configuration calls and the conditional initial size. -/
def layer_surface_map_configure (self : LayerSurface) (surface : Nat) : List Call :=
  [Call.zwlr_layer_surface_v1_set_keyboard_interactivity surface false,
   Call.zwlr_layer_surface_v1_set_anchor surface self.anchor,
   Call.zwlr_layer_surface_v1_set_exclusive_zone surface self.exclusive_zone,
   Call.zwlr_layer_surface_v1_add_listener surface] ++
  (if self.cached_width > -1 ∧ self.cached_height > -1 then
     [Call.zwlr_layer_surface_v1_set_size surface (toUInt32 self.cached_width)
        (toUInt32 self.cached_height)]
   else [])

/-- The name `layer_surface_map` gives the surface: the window title, or the
fixed string when `gtk_window_get_title` returns `NULL`. -/
def surface_name (title : Option String) : String :=
  match title with
  | some name => name
  | none => "gtk-layer-shell"

/-- The function `layer_surface_map`. -/
def layer_surface_map (env : MapOutcome) (wl_surface : Nat) (self : LayerSurface) :
    LayerSurface × List Call :=
  match self.layer_surface with
  | some _ => (self, [Call.g_critical])
  | none =>
    match env.layer_shell_global with
    | none => (self, [Call.g_critical])
    | some layer_shell_global =>
      let name : String := surface_name env.title
      let request :=
        Call.zwlr_layer_shell_v1_get_layer_surface layer_shell_global wl_surface
          self.output self.layer name
      match env.created with
      | none => ({ self with layer_surface := none }, [request, Call.g_critical])
      | some surface =>
        ({ self with layer_surface := some surface },
          request :: layer_surface_map_configure self surface)

/-- The function `layer_surface_unmap`. -/
def layer_surface_unmap (self : LayerSurface) : LayerSurface × List Call :=
  match self.layer_surface with
  | some surface =>
    ({ self with layer_surface := none }, [Call.zwlr_layer_surface_v1_destroy surface])
  | none => (self, [])

/-- The function `layer_surface_get_popup`; `xdg_popup` is what
`xdg_surface_get_popup` hands back.  The third component is the return value. -/
def layer_surface_get_popup (xdg_popup : Option Nat) (self : LayerSurface)
    (popup_xdg_surface positioner : Nat) : LayerSurface × List Call × Option Nat :=
  match self.layer_surface with
  | none => (self, [Call.g_critical], none)
  | some surface =>
    (self,
     [Call.xdg_surface_get_popup popup_xdg_surface none positioner,
      Call.zwlr_layer_surface_v1_get_popup surface xdg_popup],
     xdg_popup)

/-- The table `CustomShellSurfaceVirtual`. -/
structure CustomShellSurfaceVirtual where
  map : MapOutcome → Nat → LayerSurface → LayerSurface × List Call
  unmap : LayerSurface → LayerSurface × List Call
  finalize : LayerSurface → LayerSurface × List Call
  get_popup : Option Nat → LayerSurface → Nat → Nat → LayerSurface × List Call × Option Nat

/-- The table `layer_surface_virtual`. -/
def layer_surface_virtual : CustomShellSurfaceVirtual where
  map := layer_surface_map
  unmap := layer_surface_unmap
  finalize := layer_surface_unmap
  get_popup := layer_surface_get_popup

/-- The callback `layer_surface_on_size_allocate`; `width` and `height` are
the fields of the `GdkRectangle` allocation. -/
def layer_surface_on_size_allocate (width height : Int) (self : LayerSurface) :
    LayerSurface × List Call :=
  let calls : List Call :=
    match self.layer_surface with
    | some surface =>
      if self.cached_width ≠ width ∨ self.cached_height ≠ height then
        [Call.zwlr_layer_surface_v1_set_size surface (toUInt32 width) (toUInt32 height)]
      else []
    | none => []
  ({ self with cached_width := width, cached_height := height }, calls)

/-- The constructor `layer_surface_new`. -/
def layer_surface_new (gtk_window : Nat) : LayerSurface × List Call :=
  ({ cached_width := -1
     cached_height := -1
     output := none
     layer := Layer.top
     anchor := 0
     exclusive_zone := 0
     layer_surface := none },
   [Call.custom_shell_surface_init gtk_window,
    Call.gtk_window_set_decorated gtk_window false,
    Call.g_signal_connect_size_allocate gtk_window])

/-- Modelled from the spec: `custom_shell_surface_remap` of
`custom-shell-surface.c`, which is not part of the source extract.  The spec
defines `remap()` as unmap, then map; both go through the table of the
entity, and the map is on the same underlying surface. -/
def custom_shell_surface_remap (env : MapOutcome) (wl_surface : Nat) (self : LayerSurface) :
    LayerSurface × List Call :=
  let r1 := layer_surface_virtual.unmap self
  let r2 := layer_surface_virtual.map env wl_surface r1.1
  (r2.1, r1.2 ++ r2.2)

/-- The function `layer_surface_set_layer`; `env` and `wl_surface` are what
the remap, if one happens, meets. -/
def layer_surface_set_layer (env : MapOutcome) (wl_surface : Nat) (self : LayerSurface)
    (layer : Layer) : LayerSurface × List Call :=
  if self.layer ≠ layer then
    let self1 := { self with layer := layer }
    match self1.layer_surface with
    | some _ => custom_shell_surface_remap env wl_surface self1
    | none => (self1, [])
  else (self, [])

/-- The value `new_anchor` computed at the top of `layer_surface_set_anchor`. -/
def new_anchor (left right top bottom : Bool) : Nat :=
  (if left then ZWLR_LAYER_SURFACE_V1_ANCHOR_LEFT else 0) |||
  (if right then ZWLR_LAYER_SURFACE_V1_ANCHOR_RIGHT else 0) |||
  (if top then ZWLR_LAYER_SURFACE_V1_ANCHOR_TOP else 0) |||
  (if bottom then ZWLR_LAYER_SURFACE_V1_ANCHOR_BOTTOM else 0)

/-- The function `layer_surface_set_anchor`. -/
def layer_surface_set_anchor (self : LayerSurface) (left right top bottom : Bool) :
    LayerSurface × List Call :=
  if self.anchor ≠ new_anchor left right top bottom then
    let self1 := { self with anchor := new_anchor left right top bottom }
    match self1.layer_surface with
    | some surface =>
      (self1, [Call.zwlr_layer_surface_v1_set_anchor surface self1.anchor,
               Call.custom_shell_surface_needs_commit])
    | none => (self1, [])
  else (self, [])

/-- The function `layer_surface_set_exclusive_zone`. -/
def layer_surface_set_exclusive_zone (self : LayerSurface) (exclusive_zone : Int) :
    LayerSurface × List Call :=
  if self.exclusive_zone ≠ exclusive_zone then
    let self1 := { self with exclusive_zone := exclusive_zone }
    match self1.layer_surface with
    | some surface =>
      (self1, [Call.zwlr_layer_surface_v1_set_exclusive_zone surface self1.exclusive_zone,
               Call.custom_shell_surface_needs_commit])
    | none => (self1, [])
  else (self, [])

/-- The protocol requests among a list of calls. -/
def protocolRequests (calls : List Call) : List Call :=
  calls.filter Call.isProtocolRequest

/-- Whether a call is the size request `zwlr_layer_surface_v1_set_size`. -/
def Call.isSetSize : Call → Bool
  | .zwlr_layer_surface_v1_set_size _ _ _ => true
  | _ => false

/-- A freshly created entity for window `0`, as `layer_surface_new` returns it. -/
def freshEntity : LayerSurface := (layer_surface_new 0).1

/-- The fresh entity after a successful `layer_surface_map` on surface `3`:
global `1`, no window title, the factory returns object `7`. -/
def mappedEntity : LayerSurface :=
  (layer_surface_map { layer_shell_global := some 1, title := none, created := some 7 } 3
    freshEntity).1

/-! ## Sequences of operations -/

/-- The calls of a sequence of size-allocation notifications, one list per
notification: `layer_surface_on_size_allocate` is run on each allocation in
turn, each on the entity the one before left. -/
def size_allocate_calls : LayerSurface → List (Int × Int) → List (List Call)
  | _, [] => []
  | self, (width, height) :: rest =>
    (layer_surface_on_size_allocate width height self).2 ::
      size_allocate_calls (layer_surface_on_size_allocate width height self).1 rest

/-- One operation on the entity, with the values its collaborators hand back
while it runs. -/
inductive Op where
  | map (env : MapOutcome) (wl_surface : Nat)
  | unmap
  | finalize
  | set_layer (env : MapOutcome) (wl_surface : Nat) (layer : Layer)
  | set_anchor (left right top bottom : Bool)
  | set_exclusive_zone (exclusive_zone : Int)
  | size_allocate (width height : Int)
  | configure (surface serial w h : Nat)
  | get_popup (xdg_popup : Option Nat) (popup_xdg_surface positioner : Nat)
  deriving DecidableEq, Repr

/-- Runs one operation: the function of the source it stands for, map, unmap,
finalize and get_popup through the table `layer_surface_virtual`. -/
def step (op : Op) (self : LayerSurface) : LayerSurface × List Call :=
  match op with
  | .map env wl_surface => layer_surface_virtual.map env wl_surface self
  | .unmap => layer_surface_virtual.unmap self
  | .finalize => layer_surface_virtual.finalize self
  | .set_layer env wl_surface layer => layer_surface_set_layer env wl_surface self layer
  | .set_anchor left right top bottom => layer_surface_set_anchor self left right top bottom
  | .set_exclusive_zone exclusive_zone => layer_surface_set_exclusive_zone self exclusive_zone
  | .size_allocate width height => layer_surface_on_size_allocate width height self
  | .configure surface serial w h => layer_surface_handle_configure self surface serial w h
  | .get_popup xdg_popup popup_xdg_surface positioner =>
    ((layer_surface_virtual.get_popup xdg_popup self popup_xdg_surface positioner).1,
     (layer_surface_virtual.get_popup xdg_popup self popup_xdg_surface positioner).2.1)

/-- Whether a call is the creation request
`zwlr_layer_shell_v1_get_layer_surface`. -/
def Call.isCreation : Call → Bool
  | .zwlr_layer_shell_v1_get_layer_surface _ _ _ _ _ => true
  | _ => false

/-- Whether a call is the request `zwlr_layer_surface_v1_destroy`. -/
def Call.isDestroy : Call → Bool
  | .zwlr_layer_surface_v1_destroy _ => true
  | _ => false

/-- What the factory hands back during an operation, for the operations that
can reach it. -/
def Op.factoryResult : Op → Option Nat
  | .map env _ => env.created
  | .set_layer env _ _ => env.created
  | _ => none

/-- The protocol objects an operation creates: the creation requests it
issues, counted when the factory hands back an object. -/
def objectsCreated (op : Op) (self : LayerSurface) : Nat :=
  match op.factoryResult with
  | some _ => ((step op self).2.filter Call.isCreation).length
  | none => 0

/-- The protocol objects an operation destroys: its destroy requests. -/
def objectsDestroyed (op : Op) (self : LayerSurface) : Nat :=
  ((step op self).2.filter Call.isDestroy).length

/-- An entity together with everything it did so far: all calls in order, and
the numbers of protocol objects created and destroyed. -/
structure Run where
  self : LayerSurface
  calls : List Call
  created : Nat
  destroyed : Nat
  deriving DecidableEq, Repr

/-- The run right after `layer_surface_new`. -/
def Run.start (gtk_window : Nat) : Run :=
  { self := (layer_surface_new gtk_window).1
    calls := (layer_surface_new gtk_window).2
    created := 0
    destroyed := 0 }

/-- Extends a run by one operation. -/
def Run.advance (r : Run) (op : Op) : Run :=
  { self := (step op r.self).1
    calls := r.calls ++ (step op r.self).2
    created := r.created + objectsCreated op r.self
    destroyed := r.destroyed + objectsDestroyed op r.self }

/-- Extends a run by a sequence of operations, in order. -/
def Run.run (ops : List Op) (r : Run) : Run :=
  ops.foldl Run.advance r

/-- The effect of one call on the anchor the compositor holds for protocol
object `o`: an anchor request on `o` sets it, the destroy of `o` forgets it. -/
def anchorView (o : Nat) (view : Option Nat) : Call → Option Nat
  | .zwlr_layer_surface_v1_set_anchor surface anchor => if surface = o then some anchor else view
  | .zwlr_layer_surface_v1_destroy surface => if surface = o then none else view
  | _ => view

/-- The effect of one call on the exclusive zone the compositor holds for
protocol object `o`. -/
def zoneView (o : Nat) (view : Option Int) : Call → Option Int
  | .zwlr_layer_surface_v1_set_exclusive_zone surface zone =>
    if surface = o then some zone else view
  | .zwlr_layer_surface_v1_destroy surface => if surface = o then none else view
  | _ => view

/-- The anchor last pushed to protocol object `o` since it was last destroyed,
after the given calls. -/
def lastPushedAnchor (o : Nat) (calls : List Call) : Option Nat :=
  calls.foldl (anchorView o) none

/-- The exclusive zone last pushed to protocol object `o` since it was last
destroyed, after the given calls. -/
def lastPushedZone (o : Nat) (calls : List Call) : Option Int :=
  calls.foldl (zoneView o) none

/-- The number of protocol objects the entity holds: 1 when `layer_surface`
is set, 0 when it is `NULL`. -/
def liveObjects (self : LayerSurface) : Nat :=
  match self.layer_surface with
  | some _ => 1
  | none => 0

/-! ## Theorems -/

/-- A non-negative C `int` passed for a `uint32_t` parameter keeps its value. -/
theorem toUInt32_of_nonneg (x : Int) (h0 : -1 < x) (h : IsCInt x) :
    toUInt32 x = x.toNat := by
  unfold toUInt32
  obtain ⟨_, hlt⟩ := h
  rw [Int.emod_eq_of_lt (by omega) (by omega)]

/-- The example entity `mappedEntity` in full. -/
theorem mappedEntity_eq :
    mappedEntity =
      { cached_width := -1, cached_height := -1, anchor := 0, exclusive_zone := 0,
        output := none, layer := Layer.top, layer_surface := some 7 } := by
  rfl

/-- C1 (code bug): on the fresh entity mapped with protocol object 7, the
closed-event handler `layer_surface_handle_closed` leaves the entity as it was,
protocol object 7 still present, and makes no call; a `layer_surface_get_popup`
made right afterwards does not fail: it issues the popup request and the
association request on object 7 and returns the popup. -/
theorem handle_closed_keeps_protocol_object :
    mappedEntity.layer_surface = some 7 ∧
    layer_surface_handle_closed mappedEntity 7 = (mappedEntity, []) ∧
    (layer_surface_handle_closed mappedEntity 7).1.layer_surface = some 7 ∧
    layer_surface_get_popup (some 9) (layer_surface_handle_closed mappedEntity 7).1 5 6 =
      (mappedEntity,
       [Call.xdg_surface_get_popup 5 none 6, Call.zwlr_layer_surface_v1_get_popup 7 (some 9)],
       some 9) := by
  refine ⟨rfl, rfl, rfl, rfl⟩

/-- C2: each of the three setters, called with a value equal to the stored
one (for `layer_surface_set_anchor`: four booleans whose bitset equals the
stored anchor), returns the entity unchanged, protocol object included, and
makes no call at all: no protocol request, no commit mark, no remap. -/
theorem setters_equal_value_noop (env : MapOutcome) (wl_surface : Nat) (s : LayerSurface)
    (left right top bottom : Bool) (h : new_anchor left right top bottom = s.anchor) :
    layer_surface_set_layer env wl_surface s s.layer = (s, []) ∧
    layer_surface_set_anchor s left right top bottom = (s, []) ∧
    layer_surface_set_exclusive_zone s s.exclusive_zone = (s, []) := by
  refine ⟨?_, ?_, ?_⟩
  · simp [layer_surface_set_layer]
  · simp [layer_surface_set_anchor, h]
  · simp [layer_surface_set_exclusive_zone]

/-- C2 at a concrete input: the mapped example entity (anchor 0, layer top,
exclusive zone 0) and the call `set_anchor (false, false, false, false)`. -/
theorem setters_equal_value_noop_witness :
    new_anchor false false false false = mappedEntity.anchor ∧
    layer_surface_set_layer { layer_shell_global := some 1, title := none, created := some 8 }
      3 mappedEntity mappedEntity.layer = (mappedEntity, []) ∧
    layer_surface_set_anchor mappedEntity false false false false = (mappedEntity, []) ∧
    layer_surface_set_exclusive_zone mappedEntity mappedEntity.exclusive_zone
      = (mappedEntity, []) :=
  ⟨rfl, setters_equal_value_noop _ 3 mappedEntity false false false false rfl⟩

/-- C3: `layer_surface_set_exclusive_zone` with a value `v` different from the
stored one stores `v` and changes no other field; with protocol object `o`
present it makes exactly the calls `set_exclusive_zone (o, v)` and then the
commit mark, with none present it makes no call. -/
theorem set_exclusive_zone_changed (s : LayerSurface) (v : Int) (h : v ≠ s.exclusive_zone) :
    layer_surface_set_exclusive_zone s v =
      ({ s with exclusive_zone := v },
       match s.layer_surface with
       | some o =>
         [Call.zwlr_layer_surface_v1_set_exclusive_zone o v,
          Call.custom_shell_surface_needs_commit]
       | none => []) := by
  have h' : s.exclusive_zone ≠ v := fun e => h e.symm
  unfold layer_surface_set_exclusive_zone
  rw [if_pos h']
  cases hs : s.layer_surface <;> simp [hs]

/-- C3 at a concrete input (scenario B): the mapped example entity and the
value 24. -/
theorem set_exclusive_zone_changed_witness :
    (24 : Int) ≠ mappedEntity.exclusive_zone ∧
    layer_surface_set_exclusive_zone mappedEntity 24 =
      ({ mappedEntity with exclusive_zone := 24 },
       [Call.zwlr_layer_surface_v1_set_exclusive_zone 7 24,
        Call.custom_shell_surface_needs_commit]) :=
  ⟨by decide, set_exclusive_zone_changed mappedEntity 24 (by decide)⟩

/-- C4: after `layer_surface_set_anchor (left, right, top, bottom)` the stored
anchor is the computed bitset and nothing else changed; in it the LEFT, RIGHT,
TOP and BOTTOM bit is set exactly when the matching argument is true, no
other bit is set, and two argument tuples give the same bitset only when they
are equal.  With no protocol object no call is made; with protocol object `o`
and a bitset different from the stored one the calls are exactly
`set_anchor (o, bitset)` and then the commit mark.  On a fresh entity
`set_anchor (true, false, false, false)` makes no call and leaves the anchor
at the LEFT bit alone. -/
theorem set_anchor_spec (s : LayerSurface) (left right top bottom : Bool) :
    layer_surface_set_anchor s left right top bottom =
      ({ s with anchor := new_anchor left right top bottom },
       match s.layer_surface with
       | some o =>
         if s.anchor ≠ new_anchor left right top bottom then
           [Call.zwlr_layer_surface_v1_set_anchor o (new_anchor left right top bottom),
            Call.custom_shell_surface_needs_commit]
         else []
       | none => []) ∧
    ((layer_surface_set_anchor s left right top bottom).1.anchor
        &&& ZWLR_LAYER_SURFACE_V1_ANCHOR_LEFT
      = if left then ZWLR_LAYER_SURFACE_V1_ANCHOR_LEFT else 0) ∧
    ((layer_surface_set_anchor s left right top bottom).1.anchor
        &&& ZWLR_LAYER_SURFACE_V1_ANCHOR_RIGHT
      = if right then ZWLR_LAYER_SURFACE_V1_ANCHOR_RIGHT else 0) ∧
    ((layer_surface_set_anchor s left right top bottom).1.anchor
        &&& ZWLR_LAYER_SURFACE_V1_ANCHOR_TOP
      = if top then ZWLR_LAYER_SURFACE_V1_ANCHOR_TOP else 0) ∧
    ((layer_surface_set_anchor s left right top bottom).1.anchor
        &&& ZWLR_LAYER_SURFACE_V1_ANCHOR_BOTTOM
      = if bottom then ZWLR_LAYER_SURFACE_V1_ANCHOR_BOTTOM else 0) ∧
    (∀ i : Nat, 4 ≤ i →
      (layer_surface_set_anchor s left right top bottom).1.anchor.testBit i = false) ∧
    (∀ l r t b : Bool, new_anchor left right top bottom = new_anchor l r t b ↔
      (left = l ∧ right = r ∧ top = t ∧ bottom = b)) ∧
    layer_surface_set_anchor (layer_surface_new 0).1 true false false false =
      ({ (layer_surface_new 0).1 with anchor := ZWLR_LAYER_SURFACE_V1_ANCHOR_LEFT }, []) := by
  have hmain : layer_surface_set_anchor s left right top bottom =
      ({ s with anchor := new_anchor left right top bottom },
       match s.layer_surface with
       | some o =>
         if s.anchor ≠ new_anchor left right top bottom then
           [Call.zwlr_layer_surface_v1_set_anchor o (new_anchor left right top bottom),
            Call.custom_shell_surface_needs_commit]
         else []
       | none => []) := by
    unfold layer_surface_set_anchor
    by_cases hne : s.anchor ≠ new_anchor left right top bottom
    · rw [if_pos hne]
      cases hs : s.layer_surface <;> simp [hs, hne]
    · rw [if_neg hne]
      have he : s.anchor = new_anchor left right top bottom := not_not.mp hne
      obtain ⟨cw, ch, a, z, out, lay, ls⟩ := s
      simp only at he
      subst he
      cases ls <;> simp
  have ha : (layer_surface_set_anchor s left right top bottom).1.anchor
      = new_anchor left right top bottom := by rw [hmain]
  refine ⟨hmain, ?_, ?_, ?_, ?_, ?_, ?_, rfl⟩
  · rw [ha]; cases left <;> cases right <;> cases top <;> cases bottom <;> decide
  · rw [ha]; cases left <;> cases right <;> cases top <;> cases bottom <;> decide
  · rw [ha]; cases left <;> cases right <;> cases top <;> cases bottom <;> decide
  · rw [ha]; cases left <;> cases right <;> cases top <;> cases bottom <;> decide
  · intro i hi
    rw [ha]
    have hlt : new_anchor left right top bottom < 2 ^ 4 := by
      cases left <;> cases right <;> cases top <;> cases bottom <;> decide
    exact Nat.testBit_lt_two_pow (lt_of_lt_of_le hlt (Nat.pow_le_pow_right (by decide) hi))
  · intro l r t b
    cases left <;> cases right <;> cases top <;> cases bottom <;>
      cases l <;> cases r <;> cases t <;> cases b <;> decide

/-- C4 at a concrete input: the mapped example entity (anchor 0, object 7)
and the call `set_anchor (true, false, false, true)`: the stored anchor
becomes LEFT and BOTTOM, bit 5 is clear, and the calls are the anchor request
on object 7 and the commit mark. -/
theorem set_anchor_spec_witness :
    (4 : Nat) ≤ 5 ∧
    (layer_surface_set_anchor mappedEntity true false false true).1.anchor.testBit 5 = false ∧
    layer_surface_set_anchor mappedEntity true false false true =
      ({ mappedEntity with
           anchor := ZWLR_LAYER_SURFACE_V1_ANCHOR_LEFT ||| ZWLR_LAYER_SURFACE_V1_ANCHOR_BOTTOM },
       [Call.zwlr_layer_surface_v1_set_anchor 7 6, Call.custom_shell_surface_needs_commit]) :=
  ⟨by decide,
   (set_anchor_spec mappedEntity true false false true).2.2.2.2.2.1 5 (by decide),
   (set_anchor_spec mappedEntity true false false true).1⟩

/-- C5: `layer_surface_set_layer` with a layer `L` different from the stored
one.  With no protocol object it stores `L` and makes no call.  With protocol
object `o` it stores `L` and runs the remap (unmap, then map on the same
surface): the first call is the destroy of `o`; what follows is what the map
of the unmapped entity does, so when the global is there the next call is the
creation request, carrying the stored output, the new layer `L` and the
surface name, and the calls after it are made on the new object.  No
configuration request is sent to `o` before its destroy. -/
theorem set_layer_changed (env : MapOutcome) (wl_surface : Nat) (s : LayerSurface)
    (L : Layer) (h : L ≠ s.layer) :
    layer_surface_set_layer env wl_surface s L =
      (match s.layer_surface with
       | none => ({ s with layer := L }, [])
       | some o =>
         match env.layer_shell_global with
         | none =>
           ({ s with layer := L, layer_surface := none },
            [Call.zwlr_layer_surface_v1_destroy o, Call.g_critical])
         | some g =>
           match env.created with
           | none =>
             ({ s with layer := L, layer_surface := none },
              [Call.zwlr_layer_surface_v1_destroy o,
               Call.zwlr_layer_shell_v1_get_layer_surface g wl_surface s.output L
                 (surface_name env.title),
               Call.g_critical])
           | some n =>
             ({ s with layer := L, layer_surface := some n },
              Call.zwlr_layer_surface_v1_destroy o ::
              Call.zwlr_layer_shell_v1_get_layer_surface g wl_surface s.output L
                (surface_name env.title) ::
              layer_surface_map_configure { s with layer := L } n)) ∧
    (s.layer_surface ≠ none →
      layer_surface_set_layer env wl_surface s L =
        custom_shell_surface_remap env wl_surface { s with layer := L }) := by
  have h' : s.layer ≠ L := fun e => h e.symm
  obtain ⟨g, t, c⟩ := env
  obtain ⟨cw, ch, a, z, out, lay, ls⟩ := s
  simp only at h'
  constructor
  · cases ls with
    | none => simp [layer_surface_set_layer, h']
    | some o =>
      cases g <;> cases c <;>
        simp [layer_surface_set_layer, h', custom_shell_surface_remap, layer_surface_virtual,
          layer_surface_unmap, layer_surface_map, layer_surface_map_configure]
  · intro hls
    cases ls with
    | none => exact absurd rfl hls
    | some o => simp [layer_surface_set_layer, h']

/-- C5 at a concrete input: the mapped example entity (layer top, object 7),
the new layer overlay, a remap whose factory returns object 8. -/
theorem set_layer_changed_witness :
    Layer.overlay ≠ mappedEntity.layer ∧
    layer_surface_set_layer { layer_shell_global := some 1, title := none, created := some 8 }
        3 mappedEntity Layer.overlay =
      ({ mappedEntity with layer := Layer.overlay, layer_surface := some 8 },
       [Call.zwlr_layer_surface_v1_destroy 7,
        Call.zwlr_layer_shell_v1_get_layer_surface 1 3 none Layer.overlay "gtk-layer-shell",
        Call.zwlr_layer_surface_v1_set_keyboard_interactivity 8 false,
        Call.zwlr_layer_surface_v1_set_anchor 8 0,
        Call.zwlr_layer_surface_v1_set_exclusive_zone 8 0,
        Call.zwlr_layer_surface_v1_add_listener 8]) :=
  ⟨by decide,
   (set_layer_changed { layer_shell_global := some 1, title := none, created := some 8 }
      3 mappedEntity Layer.overlay (by decide)).1⟩

/-- C6, as stated, fails: on the mapped example entity (exclusive zone 0,
anchor 0) two calls of `layer_surface_set_exclusive_zone` with 0, and two calls
of `layer_surface_set_anchor` with all four arguments false, make no protocol
push at all, not one, and mutate nothing. -/
theorem setter_twice_stored_value_no_push :
    mappedEntity.layer_surface = some 7 ∧
    (protocolRequests
      ((layer_surface_set_exclusive_zone mappedEntity 0).2 ++
       (layer_surface_set_exclusive_zone
          (layer_surface_set_exclusive_zone mappedEntity 0).1 0).2)).length ≠ 1 ∧
    (layer_surface_set_exclusive_zone mappedEntity 0).1 = mappedEntity ∧
    (protocolRequests
      ((layer_surface_set_anchor mappedEntity false false false false).2 ++
       (layer_surface_set_anchor
          (layer_surface_set_anchor mappedEntity false false false false).1
          false false false false).2)).length ≠ 1 ∧
    (layer_surface_set_anchor mappedEntity false false false false).1 = mappedEntity := by
  refine ⟨rfl, ?_, rfl, ?_, rfl⟩ <;> decide

/-- C6, amended: for `layer_surface_set_exclusive_zone` with any value `v` and
for `layer_surface_set_anchor` with any four booleans, called twice in
succession: the second call changes no field and makes no call; the first
call leaves the value stored; and the protocol pushes of the two calls
together are exactly one (of the new value, on the protocol object) when the
value differs from the one stored before and the entity is mapped, and none
when the entity is unmapped or the value equals the one stored before. -/
theorem setter_twice (s : LayerSurface) (v : Int) (left right top bottom : Bool) :
    (layer_surface_set_exclusive_zone (layer_surface_set_exclusive_zone s v).1 v
        = ((layer_surface_set_exclusive_zone s v).1, []) ∧
     (layer_surface_set_exclusive_zone s v).1 = { s with exclusive_zone := v } ∧
     protocolRequests
        ((layer_surface_set_exclusive_zone s v).2 ++
         (layer_surface_set_exclusive_zone (layer_surface_set_exclusive_zone s v).1 v).2)
       = if v = s.exclusive_zone then []
         else match s.layer_surface with
           | some o => [Call.zwlr_layer_surface_v1_set_exclusive_zone o v]
           | none => []) ∧
    (layer_surface_set_anchor (layer_surface_set_anchor s left right top bottom).1
          left right top bottom
        = ((layer_surface_set_anchor s left right top bottom).1, []) ∧
     (layer_surface_set_anchor s left right top bottom).1
        = { s with anchor := new_anchor left right top bottom } ∧
     protocolRequests
        ((layer_surface_set_anchor s left right top bottom).2 ++
         (layer_surface_set_anchor (layer_surface_set_anchor s left right top bottom).1
            left right top bottom).2)
       = if new_anchor left right top bottom = s.anchor then []
         else match s.layer_surface with
           | some o =>
             [Call.zwlr_layer_surface_v1_set_anchor o (new_anchor left right top bottom)]
           | none => []) := by
  obtain ⟨cw, ch, a, z, out, lay, ls⟩ := s
  constructor
  · by_cases hv : z = v
    · subst hv
      simp [layer_surface_set_exclusive_zone, protocolRequests]
    · have hv' : ¬ v = z := fun e => hv e.symm
      cases ls <;>
        simp [layer_surface_set_exclusive_zone, protocolRequests, hv, hv',
          Call.isProtocolRequest]
  · by_cases ha : a = new_anchor left right top bottom
    · subst ha
      simp [layer_surface_set_anchor, protocolRequests]
    · have ha' : ¬ new_anchor left right top bottom = a := fun e => ha e.symm
      cases ls <;>
        simp [layer_surface_set_anchor, protocolRequests, ha, ha', Call.isProtocolRequest]

/-- C7: `layer_surface_map` on an unmapped entity, failing.  When the global
lookup returns nothing the only call is the logged failure: no protocol
request.  When the factory returns no object the calls are the creation
request and the logged failure: no configuration request.  In both cases the
entity is returned as it was, protocol object absent. -/
theorem map_failure (title : Option String) (created : Option Nat) (g wl_surface : Nat)
    (s : LayerSurface) (h : s.layer_surface = none) :
    layer_surface_map { layer_shell_global := none, title := title, created := created }
        wl_surface s = (s, [Call.g_critical]) ∧
    protocolRequests
      (layer_surface_map { layer_shell_global := none, title := title, created := created }
        wl_surface s).2 = [] ∧
    layer_surface_map { layer_shell_global := some g, title := title, created := none }
        wl_surface s =
      (s, [Call.zwlr_layer_shell_v1_get_layer_surface g wl_surface s.output s.layer
             (surface_name title),
           Call.g_critical]) ∧
    protocolRequests
      (layer_surface_map { layer_shell_global := some g, title := title, created := none }
        wl_surface s).2 =
      [Call.zwlr_layer_shell_v1_get_layer_surface g wl_surface s.output s.layer
         (surface_name title)] ∧
    (layer_surface_map { layer_shell_global := none, title := title, created := created }
        wl_surface s).1.layer_surface = none ∧
    (layer_surface_map { layer_shell_global := some g, title := title, created := none }
        wl_surface s).1.layer_surface = none := by
  obtain ⟨cw, ch, a, z, out, lay, ls⟩ := s
  simp only at h
  subst h
  simp [layer_surface_map, protocolRequests, Call.isProtocolRequest]

/-- C7 at a concrete input: the fresh entity, window title "panel", surface 3,
global 1. -/
theorem map_failure_witness :
    freshEntity.layer_surface = none ∧
    layer_surface_map { layer_shell_global := none, title := some "panel", created := some 7 }
        3 freshEntity = (freshEntity, [Call.g_critical]) ∧
    layer_surface_map { layer_shell_global := some 1, title := some "panel", created := none }
        3 freshEntity =
      (freshEntity,
       [Call.zwlr_layer_shell_v1_get_layer_surface 1 3 none Layer.top "panel",
        Call.g_critical]) :=
  ⟨rfl, (map_failure (some "panel") (some 7) 1 3 freshEntity rfl).1,
   (map_failure (some "panel") (some 7) 1 3 freshEntity rfl).2.2.1⟩

/-- C8: `layer_surface_map` on an unmapped entity, with global `g` and the
factory returning object `o`: the first call is the creation request with the
given surface, the stored output, the stored layer and the surface name (the
window title, or "gtk-layer-shell" when there is none); `o` is stored as the
protocol object and no other field changes; then come, on `o` and in this
order, keyboard interactivity off, the stored anchor, the stored exclusive
zone and the listener registration; the only call that can follow is the
initial size. -/
theorem map_success (title : Option String) (g o wl_surface : Nat) (s : LayerSurface)
    (h : s.layer_surface = none) :
    layer_surface_map { layer_shell_global := some g, title := title, created := some o }
        wl_surface s =
      ({ s with layer_surface := some o },
       [Call.zwlr_layer_shell_v1_get_layer_surface g wl_surface s.output s.layer
          (match title with
           | some t => t
           | none => "gtk-layer-shell"),
        Call.zwlr_layer_surface_v1_set_keyboard_interactivity o false,
        Call.zwlr_layer_surface_v1_set_anchor o s.anchor,
        Call.zwlr_layer_surface_v1_set_exclusive_zone o s.exclusive_zone,
        Call.zwlr_layer_surface_v1_add_listener o] ++
       (if s.cached_width > -1 ∧ s.cached_height > -1 then
          [Call.zwlr_layer_surface_v1_set_size o (toUInt32 s.cached_width)
             (toUInt32 s.cached_height)]
        else [])) := by
  obtain ⟨cw, ch, a, z, out, lay, ls⟩ := s
  simp only at h
  subst h
  cases title <;> simp [layer_surface_map, layer_surface_map_configure, surface_name]

/-- C8 at a concrete input: the fresh entity, no window title, surface 3,
global 1, the factory returns object 7. -/
theorem map_success_witness :
    freshEntity.layer_surface = none ∧
    layer_surface_map { layer_shell_global := some 1, title := none, created := some 7 }
        3 freshEntity =
      ({ freshEntity with layer_surface := some 7 },
       [Call.zwlr_layer_shell_v1_get_layer_surface 1 3 none Layer.top "gtk-layer-shell",
        Call.zwlr_layer_surface_v1_set_keyboard_interactivity 7 false,
        Call.zwlr_layer_surface_v1_set_anchor 7 0,
        Call.zwlr_layer_surface_v1_set_exclusive_zone 7 0,
        Call.zwlr_layer_surface_v1_add_listener 7]) :=
  ⟨rfl, map_success none 1 7 3 freshEntity rfl⟩

/-- The size requests of a successful `layer_surface_map` of an unmapped
entity, read off the guard of the source: one request with the cached width
and height, on the new object, when both are greater than -1, and none
otherwise. -/
theorem map_set_size_calls (title : Option String) (g o wl_surface : Nat) (s : LayerSurface)
    (h : s.layer_surface = none) (hw : IsCInt s.cached_width) (hh : IsCInt s.cached_height) :
    (layer_surface_map { layer_shell_global := some g, title := title, created := some o }
        wl_surface s).2.filter Call.isSetSize =
      (if s.cached_width > -1 ∧ s.cached_height > -1 then
         [Call.zwlr_layer_surface_v1_set_size o s.cached_width.toNat s.cached_height.toNat]
       else []) := by
  obtain ⟨cw, ch, a, z, out, lay, ls⟩ := s
  simp only at h hw hh
  subst h
  by_cases hc : cw > -1 ∧ ch > -1
  · have e1 := toUInt32_of_nonneg cw hc.1 hw
    have e2 := toUInt32_of_nonneg ch hc.2 hh
    simp [layer_surface_map, layer_surface_map_configure, Call.isSetSize, hc, e1, e2]
  · simp [layer_surface_map, layer_surface_map_configure, Call.isSetSize, hc]

/-- C9: for an unmapped entity whose cached width and height are each a pixel
size or the sentinel -1 (so not below -1), a successful `layer_surface_map`
makes a size request if and only if both cached values differ from -1; it is
then one request, on the new protocol object, carrying the cached width and
the cached height. -/
theorem map_initial_size (title : Option String) (g o wl_surface : Nat) (s : LayerSurface)
    (h : s.layer_surface = none) (hw : IsCInt s.cached_width) (hh : IsCInt s.cached_height)
    (dw : -1 ≤ s.cached_width) (dh : -1 ≤ s.cached_height) :
    ((∃ c ∈ (layer_surface_map
          { layer_shell_global := some g, title := title, created := some o }
          wl_surface s).2, c.isSetSize = true)
      ↔ (s.cached_width ≠ -1 ∧ s.cached_height ≠ -1)) ∧
    (layer_surface_map { layer_shell_global := some g, title := title, created := some o }
        wl_surface s).2.filter Call.isSetSize =
      (if s.cached_width ≠ -1 ∧ s.cached_height ≠ -1 then
         [Call.zwlr_layer_surface_v1_set_size o s.cached_width.toNat s.cached_height.toNat]
       else []) ∧
    (s.cached_width ≠ -1 → (s.cached_width.toNat : Int) = s.cached_width) ∧
    (s.cached_height ≠ -1 → (s.cached_height.toNat : Int) = s.cached_height) := by
  have hiff : (s.cached_width > -1 ∧ s.cached_height > -1) ↔
      (s.cached_width ≠ -1 ∧ s.cached_height ≠ -1) := by
    constructor
    · intro hc; exact ⟨by omega, by omega⟩
    · intro hc; exact ⟨by omega, by omega⟩
  have hfilter := map_set_size_calls title g o wl_surface s h hw hh
  refine ⟨?_, ?_, ?_, ?_⟩
  · rw [← hiff]
    constructor
    · rintro ⟨c, hc, hcs⟩
      by_contra hn
      have hmem : c ∈ (layer_surface_map
          { layer_shell_global := some g, title := title, created := some o }
          wl_surface s).2.filter Call.isSetSize := List.mem_filter.mpr ⟨hc, hcs⟩
      rw [hfilter, if_neg hn] at hmem
      exact absurd hmem (List.not_mem_nil c)
    · intro hc
      have hmem : Call.zwlr_layer_surface_v1_set_size o s.cached_width.toNat
            s.cached_height.toNat ∈
          (layer_surface_map
            { layer_shell_global := some g, title := title, created := some o }
            wl_surface s).2.filter Call.isSetSize := by
        rw [hfilter, if_pos hc]
        exact List.mem_singleton.mpr rfl
      exact ⟨_, (List.mem_filter.mp hmem).1, (List.mem_filter.mp hmem).2⟩
  · rw [hfilter]
    by_cases hc : s.cached_width > -1 ∧ s.cached_height > -1
    · rw [if_pos hc, if_pos (hiff.mp hc)]
    · rw [if_neg hc, if_neg (fun hne => hc (hiff.mpr hne))]
  · intro h1
    exact Int.toNat_of_nonneg (by omega)
  · intro h1
    exact Int.toNat_of_nonneg (by omega)

/-- C9 at a concrete input: the fresh entity told the size (300, 40) while
unmapped, then mapped with success on object 7: one size request (300, 40). -/
theorem map_initial_size_witness :
    (layer_surface_on_size_allocate 300 40 freshEntity).1.layer_surface = none ∧
    IsCInt (layer_surface_on_size_allocate 300 40 freshEntity).1.cached_width ∧
    IsCInt (layer_surface_on_size_allocate 300 40 freshEntity).1.cached_height ∧
    -1 ≤ (layer_surface_on_size_allocate 300 40 freshEntity).1.cached_width ∧
    -1 ≤ (layer_surface_on_size_allocate 300 40 freshEntity).1.cached_height ∧
    (layer_surface_map { layer_shell_global := some 1, title := none, created := some 7 } 3
        (layer_surface_on_size_allocate 300 40 freshEntity).1).2.filter Call.isSetSize =
      [Call.zwlr_layer_surface_v1_set_size 7 300 40] :=
  ⟨rfl, by decide, by decide, by decide, by decide,
   (map_initial_size none 1 7 3 (layer_surface_on_size_allocate 300 40 freshEntity).1
      rfl (by decide) (by decide) (by decide) (by decide)).2.1⟩

/-- C10: `layer_surface_unmap` leaves the protocol object absent and every
other field as it was; it makes one destroy request on the old object when
there was one and no call when there was none.  Applied to its own result it
changes nothing and makes no call, so twice is the same as once.  The
finalize entry of the table is the same function. -/
theorem unmap_idempotent (s : LayerSurface) :
    layer_surface_unmap s =
      ({ s with layer_surface := none },
       match s.layer_surface with
       | some o => [Call.zwlr_layer_surface_v1_destroy o]
       | none => []) ∧
    layer_surface_unmap (layer_surface_unmap s).1 = ((layer_surface_unmap s).1, []) ∧
    layer_surface_virtual.unmap = layer_surface_unmap ∧
    layer_surface_virtual.finalize = layer_surface_unmap ∧
    layer_surface_virtual.finalize s = layer_surface_virtual.unmap s := by
  obtain ⟨cw, ch, a, z, out, lay, ls⟩ := s
  refine ⟨?_, ?_, rfl, rfl, rfl⟩
  · cases ls <;> simp [layer_surface_unmap]
  · cases ls <;> simp [layer_surface_unmap]

/-- C11: `layer_surface_map` on an unmapped entity, followed at once by
`layer_surface_unmap`, gives back the entity it started from, whatever the
collaborators did during the map (global absent, factory failing, factory
succeeding): protocol object absent, every other field as before.  The unmap
destroys the object the map created when it created one, and makes no call
otherwise. -/
theorem map_then_unmap (env : MapOutcome) (wl_surface : Nat) (s : LayerSurface)
    (h : s.layer_surface = none) :
    (layer_surface_unmap (layer_surface_map env wl_surface s).1).1 = s ∧
    (layer_surface_unmap (layer_surface_map env wl_surface s).1).1.layer_surface = none ∧
    (layer_surface_unmap (layer_surface_map env wl_surface s).1).2 =
      (match env.layer_shell_global, env.created with
       | some _, some o => [Call.zwlr_layer_surface_v1_destroy o]
       | _, _ => []) ∧
    (layer_surface_map env wl_surface s).1.layer_surface =
      (match env.layer_shell_global, env.created with
       | some _, some o => some o
       | _, _ => none) := by
  obtain ⟨g, t, c⟩ := env
  obtain ⟨cw, ch, a, z, out, lay, ls⟩ := s
  simp only at h
  subst h
  cases g <;> cases c <;> simp [layer_surface_map, layer_surface_unmap]

/-- C11 at a concrete input: the fresh entity, mapped with success on object
7 and unmapped at once. -/
theorem map_then_unmap_witness :
    freshEntity.layer_surface = none ∧
    (layer_surface_unmap (layer_surface_map
        { layer_shell_global := some 1, title := none, created := some 7 } 3
        freshEntity).1).1 = freshEntity ∧
    (layer_surface_unmap (layer_surface_map
        { layer_shell_global := some 1, title := none, created := some 7 } 3
        freshEntity).1).2 = [Call.zwlr_layer_surface_v1_destroy 7] :=
  ⟨rfl,
   (map_then_unmap { layer_shell_global := some 1, title := none, created := some 7 } 3
      freshEntity rfl).1,
   (map_then_unmap { layer_shell_global := some 1, title := none, created := some 7 } 3
      freshEntity rfl).2.2.1⟩

/-- C12: a remap (unmap, then map on the same surface) of an entity mapped on
protocol object `o` changes no field other than the protocol object; its
first call is the destroy of `o`, the rest are the calls of the map of the
unmapped entity; so whatever precedes a creation request among its calls
contains that destroy, and it makes one destroy only. -/
theorem remap_preserves (env : MapOutcome) (wl_surface o : Nat) (s : LayerSurface)
    (h : s.layer_surface = some o) :
    (custom_shell_surface_remap env wl_surface s).1 =
      { s with layer_surface := (custom_shell_surface_remap env wl_surface s).1.layer_surface } ∧
    (custom_shell_surface_remap env wl_surface s).2 =
      Call.zwlr_layer_surface_v1_destroy o ::
        (layer_surface_map env wl_surface { s with layer_surface := none }).2 ∧
    (∀ (before after : List Call) (c : Call), c.isCreation = true →
      (custom_shell_surface_remap env wl_surface s).2 = before ++ c :: after →
      Call.zwlr_layer_surface_v1_destroy o ∈ before) ∧
    ((custom_shell_surface_remap env wl_surface s).2.filter Call.isDestroy).length = 1 := by
  obtain ⟨g, t, c⟩ := env
  obtain ⟨cw, ch, a, z, out, lay, ls⟩ := s
  simp only at h
  subst h
  have hcalls : (custom_shell_surface_remap ⟨g, t, c⟩ wl_surface
        ⟨cw, ch, a, z, out, lay, some o⟩).2 =
      Call.zwlr_layer_surface_v1_destroy o ::
        (layer_surface_map ⟨g, t, c⟩ wl_surface ⟨cw, ch, a, z, out, lay, none⟩).2 := by
    simp [custom_shell_surface_remap, layer_surface_virtual, layer_surface_unmap]
  refine ⟨?_, hcalls, ?_, ?_⟩
  · cases g <;> cases c <;>
      simp [custom_shell_surface_remap, layer_surface_virtual, layer_surface_unmap,
        layer_surface_map]
  · intro before after cr hcr heq
    rw [hcalls] at heq
    cases before with
    | nil =>
      simp only [List.nil_append, List.cons.injEq] at heq
      rw [← heq.1] at hcr
      simp [Call.isCreation] at hcr
    | cons b rest =>
      simp only [List.cons_append, List.cons.injEq] at heq
      rw [← heq.1]
      exact List.mem_cons_self _ _
  · rw [hcalls]
    by_cases hc : cw > -1 ∧ ch > -1 <;> cases g <;> cases c <;>
      simp [layer_surface_map, layer_surface_map_configure, Call.isDestroy, hc]

/-- C12 at a concrete input: the mapped example entity (object 7) remapped on
surface 3, the factory returning object 8. -/
theorem remap_preserves_witness :
    mappedEntity.layer_surface = some 7 ∧
    (custom_shell_surface_remap
        { layer_shell_global := some 1, title := none, created := some 8 } 3
        mappedEntity).2 =
      [Call.zwlr_layer_surface_v1_destroy 7,
       Call.zwlr_layer_shell_v1_get_layer_surface 1 3 none Layer.top "gtk-layer-shell",
       Call.zwlr_layer_surface_v1_set_keyboard_interactivity 8 false,
       Call.zwlr_layer_surface_v1_set_anchor 8 0,
       Call.zwlr_layer_surface_v1_set_exclusive_zone 8 0,
       Call.zwlr_layer_surface_v1_add_listener 8] :=
  ⟨rfl,
   (remap_preserves { layer_shell_global := some 1, title := none, created := some 8 } 3 7
      mappedEntity rfl).2.1⟩

/-- What `layer_surface_on_size_allocate` leaves: the delivered size cached,
the rest as it was. -/
theorem on_size_allocate_fst (width height : Int) (s : LayerSurface) :
    (layer_surface_on_size_allocate width height s).1 =
      { s with cached_width := width, cached_height := height } := rfl

/-- The calls of `layer_surface_on_size_allocate` on an entity with protocol
object `o`. -/
theorem on_size_allocate_snd_mapped (width height : Int) (o : Nat) (s : LayerSurface)
    (h : s.layer_surface = some o) :
    (layer_surface_on_size_allocate width height s).2 =
      if (width, height) ≠ (s.cached_width, s.cached_height) then
        [Call.zwlr_layer_surface_v1_set_size o (toUInt32 width) (toUInt32 height)]
      else [] := by
  obtain ⟨cw, ch, a, z, out, lay, ls⟩ := s
  simp only at h
  subst h
  have e1 : (width = cw) ↔ (cw = width) := eq_comm
  have e2 : (height = ch) ↔ (ch = height) := eq_comm
  by_cases h1 : cw = width <;> by_cases h2 : ch = height <;>
    simp [layer_surface_on_size_allocate, h1, h2, e1, e2]

/-- The calls of `layer_surface_on_size_allocate` on an entity without
protocol object: none. -/
theorem on_size_allocate_snd_unmapped (width height : Int) (s : LayerSurface)
    (h : s.layer_surface = none) :
    (layer_surface_on_size_allocate width height s).2 = [] := by
  simp [layer_surface_on_size_allocate, h]

/-- C13: a sequence of size-allocation notifications delivered to
`layer_surface_on_size_allocate`.  On an entity with protocol object `o` the
notification at position `k` makes a size request, one, on `o` and with the
delivered size, if and only if that size differs from the cached size right
before it: the size of the notification at position `k - 1`, or the cached
size at the start for position 0.  On an entity without protocol object no
notification makes any call. -/
theorem size_allocate_sequence (s : LayerSurface) (ns : List (Int × Int)) :
    (∀ o : Nat, s.layer_surface = some o → ∀ k : Nat, k < ns.length →
      (size_allocate_calls s ns).getD k [] =
        if ns.getD k (0, 0) ≠
            (if k = 0 then (s.cached_width, s.cached_height) else ns.getD (k - 1) (0, 0)) then
          [Call.zwlr_layer_surface_v1_set_size o (toUInt32 (ns.getD k (0, 0)).1)
             (toUInt32 (ns.getD k (0, 0)).2)]
        else []) ∧
    (s.layer_surface = none → ∀ c ∈ size_allocate_calls s ns, c = []) ∧
    (size_allocate_calls s ns).length = ns.length := by
  refine ⟨?_, ?_, ?_⟩
  · intro o
    induction ns generalizing s with
    | nil => intro _ k hk; exact absurd hk (Nat.not_lt_zero k)
    | cons n rest ih =>
      obtain ⟨w, h⟩ := n
      intro hs k hk
      cases k with
      | zero =>
        simp only [size_allocate_calls, List.getD_cons_zero, if_true]
        exact on_size_allocate_snd_mapped w h o s hs
      | succ k =>
        have hk' : k < rest.length := by simpa using hk
        have hs' : (layer_surface_on_size_allocate w h s).1.layer_surface = some o := by
          rw [on_size_allocate_fst]; exact hs
        have := ih (layer_surface_on_size_allocate w h s).1 hs' k hk'
        simp only [size_allocate_calls, List.getD_cons_succ]
        rw [this]
        cases k with
        | zero => simp [on_size_allocate_fst]
        | succ j => simp
  · induction ns generalizing s with
    | nil => intro _ c hc; simp [size_allocate_calls] at hc
    | cons n rest ih =>
      obtain ⟨w, h⟩ := n
      intro hs c hc
      simp only [size_allocate_calls, List.mem_cons] at hc
      rcases hc with hc | hc
      · rw [hc]; exact on_size_allocate_snd_unmapped w h s hs
      · have hs' : (layer_surface_on_size_allocate w h s).1.layer_surface = none := by
          rw [on_size_allocate_fst]; exact hs
        exact ih _ hs' c hc
  · induction ns generalizing s with
    | nil => rfl
    | cons n rest ih =>
      obtain ⟨w, h⟩ := n
      simp [size_allocate_calls, ih]

/-- C13 at a concrete input: the mapped example entity (object 7, cached size
unknown) is told (300, 40), (300, 40), (200, 40): the second notification, at
position 1, repeats the size before it and makes no call. -/
theorem size_allocate_sequence_witness :
    mappedEntity.layer_surface = some 7 ∧
    1 < [((300 : Int), (40 : Int)), (300, 40), (200, 40)].length ∧
    size_allocate_calls mappedEntity [(300, 40), (300, 40), (200, 40)] =
      [[Call.zwlr_layer_surface_v1_set_size 7 300 40], [],
       [Call.zwlr_layer_surface_v1_set_size 7 200 40]] ∧
    (size_allocate_calls mappedEntity [(300, 40), (300, 40), (200, 40)]).getD 1 [] =
      if ([((300 : Int), (40 : Int)), (300, 40), (200, 40)]).getD 1 (0, 0) ≠
          (if 1 = 0 then (mappedEntity.cached_width, mappedEntity.cached_height)
           else ([((300 : Int), (40 : Int)), (300, 40), (200, 40)]).getD (1 - 1) (0, 0)) then
        [Call.zwlr_layer_surface_v1_set_size 7
           (toUInt32 (([((300 : Int), (40 : Int)), (300, 40), (200, 40)]).getD 1 (0, 0)).1)
           (toUInt32 (([((300 : Int), (40 : Int)), (300, 40), (200, 40)]).getD 1 (0, 0)).2)]
      else [] :=
  ⟨rfl, by decide, by decide,
   (size_allocate_sequence mappedEntity [(300, 40), (300, 40), (200, 40)]).1 7 rfl 1
     (by decide)⟩

/-- C14: after `layer_surface_on_size_allocate` with the size (w, h) the
cached size is (w, h) and anchor, exclusive zone, layer, output and protocol
object are as before, whether the entity is mapped or not.  So, for
non-negative w and h, a notification (w, h) delivered while unmapped and
followed by a successful `layer_surface_map` makes that map issue the one size
request (w, h) on the new object. -/
theorem size_allocate_caches (w h : Int) (s : LayerSurface) :
    (layer_surface_on_size_allocate w h s).1 = { s with cached_width := w, cached_height := h } ∧
    (∀ (title : Option String) (g o wl_surface : Nat),
      s.layer_surface = none → 0 ≤ w → 0 ≤ h → IsCInt w → IsCInt h →
      (layer_surface_map { layer_shell_global := some g, title := title, created := some o }
          wl_surface (layer_surface_on_size_allocate w h s).1).2.filter Call.isSetSize =
        [Call.zwlr_layer_surface_v1_set_size o w.toNat h.toNat] ∧
      (w.toNat : Int) = w ∧ (h.toNat : Int) = h) := by
  refine ⟨rfl, ?_⟩
  intro title g o wl_surface hs hw0 hh0 hw hh
  obtain ⟨cw, ch, a, z, out, lay, ls⟩ := s
  simp only at hs
  subst hs
  have hc : w > -1 ∧ h > -1 := ⟨by omega, by omega⟩
  have e1 := toUInt32_of_nonneg w hc.1 hw
  have e2 := toUInt32_of_nonneg h hc.2 hh
  refine ⟨?_, Int.toNat_of_nonneg hw0, Int.toNat_of_nonneg hh0⟩
  simp [layer_surface_map, layer_surface_map_configure, layer_surface_on_size_allocate,
    Call.isSetSize, hc, e1, e2]

/-- C14 at a concrete input: the fresh entity is told (640, 32) while
unmapped and then mapped with success on object 7. -/
theorem size_allocate_caches_witness :
    freshEntity.layer_surface = none ∧ (0 : Int) ≤ 640 ∧ (0 : Int) ≤ 32 ∧
    IsCInt 640 ∧ IsCInt 32 ∧
    (layer_surface_map { layer_shell_global := some 1, title := none, created := some 7 }
        3 (layer_surface_on_size_allocate 640 32 freshEntity).1).2.filter Call.isSetSize =
      [Call.zwlr_layer_surface_v1_set_size 7 640 32] :=
  ⟨rfl, by decide, by decide, by decide, by decide,
   ((size_allocate_caches 640 32 freshEntity).2 none 1 7 3 rfl (by decide) (by decide)
      (by decide) (by decide)).1⟩

/-- C15: `layer_surface_handle_configure`, for every serial and every
proposed size, makes one call, the acknowledge of that serial on the surface
it was called for, and returns the entity as it was, cached size included.
For serial 7 and size (300, 40) the calls are the acknowledge of 7 alone. -/
theorem handle_configure_acks (s : LayerSurface) (surface serial w h : Nat) :
    layer_surface_handle_configure s surface serial w h =
      (s, [Call.zwlr_layer_surface_v1_ack_configure surface serial]) ∧
    layer_surface_handle_configure mappedEntity 7 7 300 40 =
      (mappedEntity, [Call.zwlr_layer_surface_v1_ack_configure 7 7]) ∧
    protocolRequests (layer_surface_handle_configure s surface serial w h).2 =
      [Call.zwlr_layer_surface_v1_ack_configure surface serial] :=
  ⟨rfl, rfl, rfl⟩

/-- C16: `layer_surface_get_popup` on an entity without protocol object
returns no popup, makes no protocol request (its one call is the logged
failure) and returns the entity as it was. -/
theorem get_popup_unmapped (xdg_popup : Option Nat) (popup_xdg_surface positioner : Nat)
    (s : LayerSurface) (h : s.layer_surface = none) :
    layer_surface_get_popup xdg_popup s popup_xdg_surface positioner =
      (s, [Call.g_critical], none) ∧
    protocolRequests
      (layer_surface_get_popup xdg_popup s popup_xdg_surface positioner).2.1 = [] := by
  simp [layer_surface_get_popup, h, protocolRequests, Call.isProtocolRequest]

/-- C16 at a concrete input: the fresh entity, popup surface 5, positioner 6. -/
theorem get_popup_unmapped_witness :
    freshEntity.layer_surface = none ∧
    layer_surface_get_popup (some 9) freshEntity 5 6 = (freshEntity, [Call.g_critical], none) :=
  ⟨rfl, (get_popup_unmapped (some 9) 5 6 freshEntity rfl).1⟩

/-- C17: `layer_surface_get_popup` on an entity with protocol object `o`
makes two calls, in this order: the generic popup request with the given
popup surface, no parent and the given positioner, then the association of
the popup that request handed back with `o`; it returns that popup and the
entity as it was. -/
theorem get_popup_mapped (xdg_popup : Option Nat) (popup_xdg_surface positioner o : Nat)
    (s : LayerSurface) (h : s.layer_surface = some o) :
    layer_surface_get_popup xdg_popup s popup_xdg_surface positioner =
      (s,
       [Call.xdg_surface_get_popup popup_xdg_surface none positioner,
        Call.zwlr_layer_surface_v1_get_popup o xdg_popup],
       xdg_popup) := by
  simp [layer_surface_get_popup, h]

/-- C17 at a concrete input: the mapped example entity (object 7), popup
surface 5, positioner 6, the popup request hands back popup 9. -/
theorem get_popup_mapped_witness :
    mappedEntity.layer_surface = some 7 ∧
    layer_surface_get_popup (some 9) mappedEntity 5 6 =
      (mappedEntity,
       [Call.xdg_surface_get_popup 5 none 6, Call.zwlr_layer_surface_v1_get_popup 7 (some 9)],
       some 9) :=
  ⟨rfl, get_popup_mapped (some 9) 5 6 7 mappedEntity rfl⟩

/-- C18: `layer_surface_new` returns, for every window, an entity with cached
width and height -1, layer top, anchor 0, exclusive zone 0, no output and no
protocol object; its calls are the initialisation of the base part, the
switching off of the decoration of the window and the subscription to its
size allocations, and none of them is a protocol request. -/
theorem new_entity (gtk_window : Nat) :
    (layer_surface_new gtk_window).1 =
      { cached_width := -1, cached_height := -1, anchor := 0, exclusive_zone := 0,
        output := none, layer := Layer.top, layer_surface := none } ∧
    (layer_surface_new gtk_window).2 =
      [Call.custom_shell_surface_init gtk_window,
       Call.gtk_window_set_decorated gtk_window false,
       Call.g_signal_connect_size_allocate gtk_window] ∧
    protocolRequests (layer_surface_new gtk_window).2 = [] :=
  ⟨rfl, rfl, rfl⟩

/-- One operation keeps the balance: what it creates plus what the entity
held before is what it destroys plus what the entity holds after. -/
theorem step_balance (op : Op) (s : LayerSurface) :
    objectsCreated op s + liveObjects s = objectsDestroyed op s + liveObjects (step op s).1 := by
  obtain ⟨cw, ch, a, z, out, lay, ls⟩ := s
  cases op with
  | map env wl =>
    obtain ⟨g, t, c⟩ := env
    by_cases hc : cw > -1 ∧ ch > -1 <;> cases ls <;> cases g <;> cases c <;>
      simp [objectsCreated, objectsDestroyed, Op.factoryResult, step, layer_surface_virtual,
        layer_surface_map, layer_surface_map_configure, liveObjects, Call.isCreation,
        Call.isDestroy, hc]
  | unmap =>
    cases ls <;>
      simp [objectsCreated, objectsDestroyed, Op.factoryResult, step, layer_surface_virtual,
        layer_surface_unmap, liveObjects, Call.isDestroy]
  | finalize =>
    cases ls <;>
      simp [objectsCreated, objectsDestroyed, Op.factoryResult, step, layer_surface_virtual,
        layer_surface_unmap, liveObjects, Call.isDestroy]
  | set_layer env wl layer =>
    obtain ⟨g, t, c⟩ := env
    by_cases hl : lay = layer <;> by_cases hc : cw > -1 ∧ ch > -1 <;>
      cases ls <;> cases g <;> cases c <;>
      simp [objectsCreated, objectsDestroyed, Op.factoryResult, step, layer_surface_virtual,
        layer_surface_set_layer, custom_shell_surface_remap, layer_surface_unmap,
        layer_surface_map, layer_surface_map_configure, liveObjects, Call.isCreation,
        Call.isDestroy, hl, hc]
  | set_anchor l r t b =>
    by_cases ha : a = new_anchor l r t b <;> cases ls <;>
      simp [objectsCreated, objectsDestroyed, Op.factoryResult, step,
        layer_surface_set_anchor, liveObjects, Call.isDestroy, ha]
  | set_exclusive_zone v =>
    by_cases hz : z = v <;> cases ls <;>
      simp [objectsCreated, objectsDestroyed, Op.factoryResult, step,
        layer_surface_set_exclusive_zone, liveObjects, Call.isDestroy, hz]
  | size_allocate w h =>
    by_cases hs : cw ≠ w ∨ ch ≠ h <;> cases ls <;>
      simp [objectsCreated, objectsDestroyed, Op.factoryResult, step,
        layer_surface_on_size_allocate, liveObjects, Call.isDestroy, hs]
  | configure surface serial w h =>
    simp [objectsCreated, objectsDestroyed, Op.factoryResult, step,
      layer_surface_handle_configure, liveObjects, Call.isDestroy]
  | get_popup p x y =>
    cases ls <;>
      simp [objectsCreated, objectsDestroyed, Op.factoryResult, step, layer_surface_virtual,
        layer_surface_get_popup, liveObjects, Call.isDestroy]

/-- The balance of created, destroyed and held protocol objects, and the
agreement of the destroy count with the calls, pass from a run to its
extension by any sequence of operations. -/
theorem run_balance (ops : List Op) (r : Run)
    (hb : r.created = r.destroyed + liveObjects r.self)
    (hd : r.destroyed = (r.calls.filter Call.isDestroy).length) :
    (Run.run ops r).created = (Run.run ops r).destroyed + liveObjects (Run.run ops r).self ∧
    (Run.run ops r).destroyed = ((Run.run ops r).calls.filter Call.isDestroy).length := by
  induction ops generalizing r with
  | nil => exact ⟨hb, hd⟩
  | cons op rest ih =>
    have hstep := step_balance op r.self
    apply ih (r.advance op)
    · simp only [Run.advance]
      omega
    · simp only [Run.advance, objectsDestroyed, List.filter_append, List.length_append]
      omega

/-- C19: after `layer_surface_new` and any finite sequence of map (with any
outcome of the collaborators, also on an entity already mapped), unmap,
finalize, set_layer, set_anchor, set_exclusive_zone, size allocation,
configure and get_popup, the number of protocol objects created is the number
destroyed plus 1 when the protocol object is present and plus 0 when it is
absent; the number destroyed is the number of destroy requests among the
calls and never exceeds the number created.  A map on an entity that is
already mapped creates nothing, makes no protocol request and changes
nothing. -/
theorem live_object_balance (gtk_window : Nat) (ops : List Op) (env : MapOutcome)
    (wl_surface o : Nat) (s : LayerSurface) :
    (Run.run ops (Run.start gtk_window)).created =
      (Run.run ops (Run.start gtk_window)).destroyed +
        (match (Run.run ops (Run.start gtk_window)).self.layer_surface with
         | some _ => 1
         | none => 0) ∧
    (Run.run ops (Run.start gtk_window)).destroyed =
      ((Run.run ops (Run.start gtk_window)).calls.filter Call.isDestroy).length ∧
    (Run.run ops (Run.start gtk_window)).destroyed ≤
      (Run.run ops (Run.start gtk_window)).created ∧
    layer_surface_map env wl_surface { s with layer_surface := some o } =
      ({ s with layer_surface := some o }, [Call.g_critical]) ∧
    objectsCreated (Op.map env wl_surface) { s with layer_surface := some o } = 0 := by
  have h := run_balance ops (Run.start gtk_window) rfl rfl
  have h1 : (Run.run ops (Run.start gtk_window)).created =
      (Run.run ops (Run.start gtk_window)).destroyed +
        (match (Run.run ops (Run.start gtk_window)).self.layer_surface with
         | some _ => 1
         | none => 0) := h.1
  refine ⟨h1, h.2, ?_, rfl, ?_⟩
  · omega
  · cases hr : env.created <;>
      simp [objectsCreated, Op.factoryResult, step, layer_surface_virtual, layer_surface_map,
        Call.isCreation, hr]

/-- A run with a map, a change of layer while mapped, a second map and an
unmap, evaluated: two objects created, two destroyed, none held. -/
theorem run_example :
    let r := Run.run
      [Op.map { layer_shell_global := some 1, title := none, created := some 7 } 3,
       Op.set_layer { layer_shell_global := some 1, title := none, created := some 8 } 3
         Layer.overlay,
       Op.map { layer_shell_global := some 1, title := none, created := some 9 } 3,
       Op.unmap]
      (Run.start 0)
    r.created = 2 ∧ r.destroyed = 2 ∧ r.self.layer_surface = none ∧
    r.calls.filter Call.isProtocolRequest =
      [Call.zwlr_layer_shell_v1_get_layer_surface 1 3 none Layer.top "gtk-layer-shell",
       Call.zwlr_layer_surface_v1_set_keyboard_interactivity 7 false,
       Call.zwlr_layer_surface_v1_set_anchor 7 0,
       Call.zwlr_layer_surface_v1_set_exclusive_zone 7 0,
       Call.zwlr_layer_surface_v1_add_listener 7,
       Call.zwlr_layer_surface_v1_destroy 7,
       Call.zwlr_layer_shell_v1_get_layer_surface 1 3 none Layer.overlay "gtk-layer-shell",
       Call.zwlr_layer_surface_v1_set_keyboard_interactivity 8 false,
       Call.zwlr_layer_surface_v1_set_anchor 8 0,
       Call.zwlr_layer_surface_v1_set_exclusive_zone 8 0,
       Call.zwlr_layer_surface_v1_add_listener 8,
       Call.zwlr_layer_surface_v1_destroy 8] := by
  decide

/-- The anchor view of object `o` after the configuration calls of a map on
object `n`. -/
theorem anchorView_map_configure (o n : Nat) (view : Option Nat) (s : LayerSurface) :
    (layer_surface_map_configure s n).foldl (anchorView o) view =
      if n = o then some s.anchor else view := by
  unfold layer_surface_map_configure
  by_cases hn : n = o <;> split <;> simp [anchorView, hn]

/-- The zone view of object `o` after the configuration calls of a map on
object `n`. -/
theorem zoneView_map_configure (o n : Nat) (view : Option Int) (s : LayerSurface) :
    (layer_surface_map_configure s n).foldl (zoneView o) view =
      if n = o then some s.exclusive_zone else view := by
  unfold layer_surface_map_configure
  by_cases hn : n = o <;> split <;> simp [zoneView, hn]

/-- One operation keeps the pushed anchor in step: when the entity holds
protocol object `o` afterwards, the anchor last pushed to `o` is the stored
one, provided this was so before whenever the entity held `o` before. -/
theorem step_anchor_view (op : Op) (s : LayerSurface) (o : Nat) (view : Option Nat)
    (hinv : s.layer_surface = some o → view = some s.anchor)
    (hafter : (step op s).1.layer_surface = some o) :
    (step op s).2.foldl (anchorView o) view = some (step op s).1.anchor := by
  obtain ⟨cw, ch, a, z, out, lay, ls⟩ := s
  simp only at hinv
  cases op with
  | map env wl =>
    obtain ⟨g, t, c⟩ := env
    cases ls <;> cases g <;> cases c <;>
      simp_all [step, layer_surface_virtual, layer_surface_map, anchorView_map_configure,
        anchorView]
  | unmap =>
    cases ls <;> simp_all [step, layer_surface_virtual, layer_surface_unmap]
  | finalize =>
    cases ls <;> simp_all [step, layer_surface_virtual, layer_surface_unmap]
  | set_layer env wl layer =>
    obtain ⟨g, t, c⟩ := env
    by_cases hl : lay = layer <;> cases ls <;> cases g <;> cases c <;>
      simp_all [step, layer_surface_virtual, layer_surface_set_layer,
        custom_shell_surface_remap, layer_surface_unmap, layer_surface_map,
        anchorView_map_configure, anchorView]
  | set_anchor l r t b =>
    by_cases ha : a = new_anchor l r t b <;> cases ls <;>
      simp_all [step, layer_surface_set_anchor, anchorView]
  | set_exclusive_zone v =>
    by_cases hz : z = v <;> cases ls <;>
      simp_all [step, layer_surface_set_exclusive_zone, anchorView]
  | size_allocate w h =>
    by_cases hs : cw ≠ w ∨ ch ≠ h <;> cases ls <;>
      simp_all [step, layer_surface_on_size_allocate, anchorView]
  | configure surface serial w h =>
    simp_all [step, layer_surface_handle_configure, anchorView]
  | get_popup p x y =>
    cases ls <;> simp_all [step, layer_surface_virtual, layer_surface_get_popup, anchorView]

/-- One operation keeps the pushed exclusive zone in step, in the same sense. -/
theorem step_zone_view (op : Op) (s : LayerSurface) (o : Nat) (view : Option Int)
    (hinv : s.layer_surface = some o → view = some s.exclusive_zone)
    (hafter : (step op s).1.layer_surface = some o) :
    (step op s).2.foldl (zoneView o) view = some (step op s).1.exclusive_zone := by
  obtain ⟨cw, ch, a, z, out, lay, ls⟩ := s
  simp only at hinv
  cases op with
  | map env wl =>
    obtain ⟨g, t, c⟩ := env
    cases ls <;> cases g <;> cases c <;>
      simp_all [step, layer_surface_virtual, layer_surface_map, zoneView_map_configure,
        zoneView]
  | unmap =>
    cases ls <;> simp_all [step, layer_surface_virtual, layer_surface_unmap]
  | finalize =>
    cases ls <;> simp_all [step, layer_surface_virtual, layer_surface_unmap]
  | set_layer env wl layer =>
    obtain ⟨g, t, c⟩ := env
    by_cases hl : lay = layer <;> cases ls <;> cases g <;> cases c <;>
      simp_all [step, layer_surface_virtual, layer_surface_set_layer,
        custom_shell_surface_remap, layer_surface_unmap, layer_surface_map,
        zoneView_map_configure, zoneView]
  | set_anchor l r t b =>
    by_cases ha : a = new_anchor l r t b <;> cases ls <;>
      simp_all [step, layer_surface_set_anchor, zoneView]
  | set_exclusive_zone v =>
    by_cases hz : z = v <;> cases ls <;>
      simp_all [step, layer_surface_set_exclusive_zone, zoneView]
  | size_allocate w h =>
    by_cases hs : cw ≠ w ∨ ch ≠ h <;> cases ls <;>
      simp_all [step, layer_surface_on_size_allocate, zoneView]
  | configure surface serial w h =>
    simp_all [step, layer_surface_handle_configure, zoneView]
  | get_popup p x y =>
    cases ls <;> simp_all [step, layer_surface_virtual, layer_surface_get_popup, zoneView]

/-- The agreement of the pushed anchor and exclusive zone with the stored
ones passes from a run to its extension by any sequence of operations. -/
theorem run_views (ops : List Op) (r : Run)
    (hr : ∀ o, r.self.layer_surface = some o →
      lastPushedAnchor o r.calls = some r.self.anchor ∧
      lastPushedZone o r.calls = some r.self.exclusive_zone) :
    ∀ o, (Run.run ops r).self.layer_surface = some o →
      lastPushedAnchor o (Run.run ops r).calls = some (Run.run ops r).self.anchor ∧
      lastPushedZone o (Run.run ops r).calls = some (Run.run ops r).self.exclusive_zone := by
  induction ops generalizing r with
  | nil => exact hr
  | cons op rest ih =>
    apply ih (r.advance op)
    intro o ho
    simp only [Run.advance] at ho
    simp only [Run.advance, lastPushedAnchor, lastPushedZone, List.foldl_append]
    exact ⟨step_anchor_view op r.self o _ (fun h => (hr o h).1) ho,
           step_zone_view op r.self o _ (fun h => (hr o h).2) ho⟩

/-- C20: after `layer_surface_new` and any finite sequence of map, unmap,
set_layer, set_anchor, set_exclusive_zone and size allocation (and of
finalize, configure and get_popup as well), whenever the entity holds a
protocol object, the anchor and the exclusive zone last pushed to that object
since its creation are the stored anchor and the stored exclusive zone. -/
theorem pushed_configuration_in_step (gtk_window : Nat) (ops : List Op) (o : Nat)
    (h : (Run.run ops (Run.start gtk_window)).self.layer_surface = some o) :
    lastPushedAnchor o (Run.run ops (Run.start gtk_window)).calls =
      some (Run.run ops (Run.start gtk_window)).self.anchor ∧
    lastPushedZone o (Run.run ops (Run.start gtk_window)).calls =
      some (Run.run ops (Run.start gtk_window)).self.exclusive_zone :=
  run_views ops (Run.start gtk_window)
    (fun o ho => by simp [Run.start, layer_surface_new] at ho) o h

/-- C20 at a concrete input: anchor and exclusive zone set while unmapped,
then a map on object 7, a change of anchor, a change of layer that remaps
onto object 8, and a change of exclusive zone: object 8 holds anchor TOP and
LEFT and BOTTOM (7) and exclusive zone 30, as stored. -/
theorem pushed_configuration_in_step_witness :
    (Run.run
      [Op.set_anchor true false true false, Op.set_exclusive_zone 24,
       Op.map { layer_shell_global := some 1, title := none, created := some 7 } 3,
       Op.set_anchor true false true true,
       Op.set_layer { layer_shell_global := some 1, title := none, created := some 8 } 3
         Layer.bottom,
       Op.set_exclusive_zone 30]
      (Run.start 0)).self.layer_surface = some 8 ∧
    lastPushedAnchor 8 (Run.run
      [Op.set_anchor true false true false, Op.set_exclusive_zone 24,
       Op.map { layer_shell_global := some 1, title := none, created := some 7 } 3,
       Op.set_anchor true false true true,
       Op.set_layer { layer_shell_global := some 1, title := none, created := some 8 } 3
         Layer.bottom,
       Op.set_exclusive_zone 30]
      (Run.start 0)).calls = some 7 ∧
    lastPushedZone 8 (Run.run
      [Op.set_anchor true false true false, Op.set_exclusive_zone 24,
       Op.map { layer_shell_global := some 1, title := none, created := some 7 } 3,
       Op.set_anchor true false true true,
       Op.set_layer { layer_shell_global := some 1, title := none, created := some 8 } 3
         Layer.bottom,
       Op.set_exclusive_zone 30]
      (Run.start 0)).calls = some 30 :=
  ⟨by decide,
   (pushed_configuration_in_step 0 _ 8 (by decide)).1,
   (pushed_configuration_in_step 0 _ 8 (by decide)).2⟩

end LayerShell
